import Mathlib

/-!
Verification development for the pod-deployment form
(src/packages/renderer/src/lib/pod/DeployPodToKube.svelte).

The structured manifest held by the form (`bodyPod : V1Pod`), the derived
Kubernetes objects (Service, Route, Ingress), the planning and sanitization
steps of `deployToKube`, the submission call sequence, the reactive label-sync
block and the status poller are embedded as executable Lean definitions,
each annotated with the source lines it translates.  JavaScript truthiness
tests on optional numbers and strings are modelled explicitly
(`truthyNat`, `truthyStr`): an absent value and the zero / empty value are
both falsy.
-/

namespace DeployPodToKube

/-- One entry of a container's `ports[]` array: `hostPort`, `containerPort`
and `protocol` are all optional in the generated manifest. -/
structure ContainerPort where
  hostPort : Option Nat
  containerPort : Option Nat
  protocol : Option String
  deriving Repr, DecidableEq

/-- One entry of `spec.containers[]`.  `volumeMounts` contents are never
inspected, only deleted, so they are kept opaque as a list of names. -/
structure Container where
  ports : Option (List ContainerPort)
  volumeMounts : Option (List String)
  imagePullPolicy : Option String
  deriving Repr, DecidableEq

/-- `metadata.labels`: the code only ever touches the `app` key; the other
keys are kept opaque so that deep equality of manifests is meaningful. -/
structure PodLabels where
  app : Option String
  rest : List (String × String)
  deriving Repr, DecidableEq

/-- `metadata` of the pod manifest.  `nspace` models `metadata.namespace`
(`namespace` is a reserved word in Lean). -/
structure PodMetadata where
  name : Option String
  nspace : Option String
  labels : Option PodLabels
  deriving Repr, DecidableEq

/-- `spec` of the pod manifest.  `volumes` contents are never inspected,
only deleted, so they are kept opaque as a list of names. -/
structure PodSpec where
  containers : List Container
  volumes : Option (List String)
  deriving Repr, DecidableEq

/-- `status` of a pod returned by the cluster; only `phase` is read. -/
structure PodStatus where
  phase : Option String
  deriving Repr, DecidableEq

/-- The structured pod manifest (`bodyPod`), and also the pods returned by
the cluster (`createdPod`). -/
structure V1Pod where
  metadata : Option PodMetadata
  spec : Option PodSpec
  status : Option PodStatus
  deriving Repr, DecidableEq

/-- JavaScript truthiness of an optional number: `undefined` and `0` are
falsy. -/
def truthyNat : Option Nat → Bool
  | none => false
  | some n => decide (n ≠ 0)

/-- JavaScript truthiness of an optional string: `undefined` and the empty
string are falsy. -/
def truthyStr : Option String → Bool
  | none => false
  | some s => decide (s ≠ "")

/-- All port entries of all containers, in container order then port order,
as traversed by the nested `forEach` loops (lines 181-235 and 100-104):
`bodyPod.spec?.containers?.forEach(container => container?.ports?.forEach(...))`. -/
def podPorts (pod : V1Pod) : List ContainerPort :=
  ((pod.spec.map PodSpec.containers).getD []).foldr
    (fun c acc => c.ports.getD [] ++ acc) []

/-- Rendering of `bodyPod.metadata?.name` inside a JS template literal:
an absent name renders as the string "undefined". -/
def podNameStr (pod : V1Pod) : String :=
  match pod.metadata.bind PodMetadata.name with
  | some s => s
  | none => "undefined"

/-- One entry of a Service's `spec.ports`. -/
structure ServicePort where
  name : String
  port : Nat
  protocol : String
  targetPort : Option Nat
  deriving Repr, DecidableEq

/-- The Service object built at lines 187-207: metadata name and namespace,
a `spec.ports` array, and the selector's `app` entry
(`app: bodyPod.metadata?.name`). -/
structure ServiceSpec where
  name : String
  nspace : String
  ports : List ServicePort
  selectorApp : Option String
  deriving Repr, DecidableEq

/-- The OpenShift Route object built at lines 212-231. -/
structure RouteSpec where
  name : String
  nspace : String
  targetPort : Option Nat
  toKind : String
  toName : String
  tlsTermination : String
  deriving Repr, DecidableEq

/-- The Ingress object built at lines 272-289: its default backend points at
the resolved service name and port. -/
structure IngressSpec where
  name : Option String
  nspace : String
  backendServiceName : String
  backendServicePort : Nat
  deriving Repr, DecidableEq

/-- The Service built for one container port with truthy `hostPort = hp`
(lines 184-207): `portName` is the template `podName-hostPort`, the single
`spec.ports` entry uses `port: port.hostPort`,
`protocol: port.protocol ?? 'TCP'`, `targetPort: port.containerPort`, and the
selector binds `app` to `bodyPod.metadata?.name`. -/
def serviceForPort (pod : V1Pod) (ns : String) (p : ContainerPort) (hp : Nat) :
    ServiceSpec :=
  let portName := podNameStr pod ++ "-" ++ toString hp
  { name := portName
    nspace := ns
    ports := [{ name := portName, port := hp, protocol := p.protocol.getD "TCP",
                targetPort := p.containerPort }]
    selectorApp := pod.metadata.bind PodMetadata.name }

/-- The Route built for the same port (lines 212-231): named
`podName-hostPort`, `spec.port.targetPort = port.containerPort`, pointing to
the Service of the same name, with edge TLS termination. -/
def routeForPort (pod : V1Pod) (ns : String) (p : ContainerPort) (hp : Nat) :
    RouteSpec :=
  { name := podNameStr pod ++ "-" ++ toString hp
    nspace := ns
    targetPort := p.containerPort
    toKind := "Service"
    toName := podNameStr pod ++ "-" ++ toString hp
    tlsTermination := "edge"
    }

/-- The `servicesToCreate` list built at lines 178-237: when
`deployUsingServices` holds, one Service per container port whose `hostPort`
is truthy (`if (port.hostPort)`), in traversal order; otherwise empty. -/
def planServices (pod : V1Pod) (ns : String) (useServices : Bool) :
    List ServiceSpec :=
  if useServices then
    (podPorts pod).filterMap (fun p =>
      if truthyNat p.hostPort then
        some (serviceForPort pod ns p (p.hostPort.getD 0))
      else none)
  else []

/-- The `routesToCreate` list built at lines 210-233: inside the same loop
over truthy-hostPort ports, one Route per such port, but only when
`openshiftRouteGroupSupported && deployUsingRoutes` holds (and the loop runs
only under `deployUsingServices`). -/
def planRoutes (pod : V1Pod) (ns : String)
    (useServices routeGroupSupported useRoutes : Bool) : List RouteSpec :=
  if useServices && routeGroupSupported && useRoutes then
    (podPorts pod).filterMap (fun p =>
      if truthyNat p.hostPort then
        some (routeForPort pod ns p (p.hostPort.getD 0))
      else none)
  else []

/-- The UI flag variables mutated by `deployToKube` (lines 26-29, 159-163,
247-268, 370-378). -/
structure DeployUIState where
  deployStarted : Bool
  deployFinished : Bool
  deployError : String
  deployWarning : String
  deriving Repr, DecidableEq

/-- Whether the planning phase reached the resource-creation `try` block
(lines 312-360) with the lists it will submit, or returned early. -/
inductive PlanResult where
  | proceed (services : List ServiceSpec) (routes : List RouteSpec)
      (ingresses : List IngressSpec)
  | abort
  deriving Repr, DecidableEq

/-- `servicesToCreate[i].spec.ports[0].port`: every Service built by the
planner carries exactly one port entry (the code comment at line 245 relies
on this), so the head's port is read; an out-of-range read would be a
JavaScript TypeError and cannot occur on planner output. -/
def firstPortNum (s : ServiceSpec) : Nat :=
  match s.ports with
  | p :: _ => p.port
  | [] => 0

/-- Warning text of line 248. -/
def ingressNoServiceWarning : String :=
  "In order to create an Ingress a Pod must have a Service associated to a port mapping. Check that your container(s) has a port exposed correctly in order to generate a Service."

/-- Warning text of line 258. -/
def ingressNoPortWarning : String :=
  "You need to specify a port to create an ingress."

/-- Error text of line 267. -/
def ingressNoMatchError : String :=
  "Unable to find the service that matches the port you want to expose."

/-- The Ingress built at lines 272-289 once `serviceName` and `servicePort`
are resolved: named after the pod, default backend pointing at that
service/port. -/
def mkIngress (pod : V1Pod) (ns : String) (serviceName : String)
    (servicePort : Nat) : IngressSpec :=
  { name := pod.metadata.bind PodMetadata.name
    nspace := ns
    backendServiceName := serviceName
    backendServicePort := servicePort }

/-- Lines 159-293 of `deployToKube`: reset the UI flags (started := true,
finished := false, error and warning cleared), guard on a truthy
`bodyPod.metadata?.name`, build `servicesToCreate` and `routesToCreate`,
then — when `createIngress` holds — run the case analysis of lines 244-270:
zero services sets the warning of line 248 and resets `deployStarted`;
exactly one service auto-targets it; with more than one service a falsy
`ingressPort` sets the warning of line 258 and resets `deployStarted`, a
truthy one is matched by `find` against `spec.ports[0].port`, a match
targets that service and no match sets the error of line 267 (leaving
`deployStarted` alone) and returns.  Returns the flag state and either the
lists handed to the creation loop or an abort. -/
def deployPlanPhase (pod : V1Pod) (ns : String)
    (useServices routeGroupSupported useRoutes createIngress : Bool)
    (ingressPort : Option Nat) : DeployUIState × PlanResult :=
  let st : DeployUIState :=
    { deployStarted := true, deployFinished := false,
      deployError := "", deployWarning := "" }
  if truthyStr (pod.metadata.bind PodMetadata.name) then
    let services := planServices pod ns useServices
    let routes := planRoutes pod ns useServices routeGroupSupported useRoutes
    if createIngress then
      match services with
      | [] =>
          ({ st with deployWarning := ingressNoServiceWarning,
                     deployStarted := false }, PlanResult.abort)
      | [s] =>
          (st, PlanResult.proceed services routes
            [mkIngress pod ns s.name (firstPortNum s)])
      | _ :: _ :: _ =>
          if truthyNat ingressPort then
            match services.find? (fun s =>
                firstPortNum s == ingressPort.getD 0) with
            | some s =>
                (st, PlanResult.proceed services routes
                  [mkIngress pod ns s.name (firstPortNum s)])
            | none =>
                ({ st with deployError := ingressNoMatchError },
                  PlanResult.abort)
          else
            ({ st with deployWarning := ingressNoPortWarning,
                       deployStarted := false }, PlanResult.abort)
    else
      (st, PlanResult.proceed services routes [])
  else
    (st, PlanResult.abort)

/-- Sanitization of one port entry (lines 330-335): `delete port.hostPort`. -/
def sanitizePort (p : ContainerPort) : ContainerPort :=
  { p with hostPort := none }

/-- Sanitization of one container (lines 321-336): `delete
container.volumeMounts` and, when a `ports` array exists, delete every
port's `hostPort`. -/
def sanitizeContainer (c : Container) : Container :=
  { c with volumeMounts := none,
           ports := c.ports.map (fun ps => ps.map sanitizePort) }

/-- Lines 313-337 of the `try` block: delete `spec.volumes` (the guard
`if (bodyPod?.spec?.volumes)` only skips a delete that would be a no-op),
and when `deployUsingServices` holds, sanitize every container.  The
restricted-security-context branch (lines 339-341) calls a helper outside
this file and is exercised by no claim; all claims are settled with
`deployUsingRestrictedSecurityContext = false`. -/
def sanitize (pod : V1Pod) (useServices : Bool) : V1Pod :=
  let pod1 : V1Pod :=
    { pod with spec := pod.spec.map (fun sp => { sp with volumes := none }) }
  if useServices then
    { pod1 with spec := pod1.spec.map (fun sp =>
        { sp with containers := sp.containers.map sanitizeContainer }) }
  else pod1

/-- Lines 310-378 for a submission attempt whose pod creation fails, with
the JavaScript aliasing semantics made explicit: line 310
(`let previousPod = bodyPod`) copies a reference, not the document, so
`previousPod` and `bodyPod` name the same object; the sanitization of lines
313-337 mutates that shared object in place; and the assignment
`bodyPod = previousPod` of line 373 therefore leaves `bodyPod` holding the
sanitized document.  This is the value the form's manifest has after the
failed attempt. -/
def bodyPodAfterFailedDeploy (pod : V1Pod) (useServices : Bool) : V1Pod :=
  sanitize pod useServices

/-- The flag mutations of the catch handler, lines 370-378: record the
error, reset `deployStarted` and `deployFinished`. -/
def deployCatchFlags (st : DeployUIState) (errMsg : String) : DeployUIState :=
  { st with deployError := errMsg, deployStarted := false,
            deployFinished := false }

/-- One resource-creation call to the host bridge (lines 344-359):
`kubernetesCreatePod`, `kubernetesCreateService`, `openshiftCreateRoute`,
`kubernetesCreateIngress`. -/
inductive KubeCall where
  | createPod (ns : String) (pod : V1Pod)
  | createService (ns : String) (s : ServiceSpec)
  | createRoute (ns : String) (r : RouteSpec)
  | createIngress (ns : String) (i : IngressSpec)
  deriving Repr, DecidableEq

/-- The creation calls of the `try` block in source order (lines 343-360):
the pod first, then every planned Service in list order, then every planned
Route, then every planned Ingress. -/
def plannedCalls (ns : String) (pod : V1Pod) (services : List ServiceSpec)
    (routes : List RouteSpec) (ingresses : List IngressSpec) : List KubeCall :=
  KubeCall.createPod ns pod ::
    (services.map (KubeCall.createService ns) ++
     routes.map (KubeCall.createRoute ns) ++
     ingresses.map (KubeCall.createIngress ns))

/-- Sequential `await` execution of a call list against a collaborator whose
success on each call is `ok` (lines 343-360 wrapped in the single
`try`/`catch` of lines 312-379): each call is issued in order; the first
call on which the collaborator throws ends the attempt — it is the last call
issued, nothing after it runs, and nothing is retried.  Returns the calls
actually issued and whether the attempt succeeded. -/
def runCalls (ok : KubeCall → Bool) : List KubeCall → List KubeCall × Bool
  | [] => ([], true)
  | c :: rest =>
      if ok c then
        let r := runCalls ok rest
        (c :: r.1, r.2)
      else ([c], false)

/-- Creation calls issued by a whole attempt: an aborted planning phase
(early `return` at lines 249, 260 or 268, or a falsy pod name) issues none;
a planning phase that proceeds runs the planned calls sequentially on the
sanitized pod. -/
def deploySubmitCalls (ok : KubeCall → Bool) (sanitizedPod : V1Pod)
    (ns : String) : PlanResult → List KubeCall × Bool
  | PlanResult.abort => ([], true)
  | PlanResult.proceed services routes ingresses =>
      runCalls ok (plannedCalls ns sanitizedPod services routes ingresses)

/-- Lines 98-106 of `onMount`: walk every container, push each port's
`hostPort` onto `containerPortArray` (the pushed value is whatever
`port.hostPort` holds, `undefined` included), and set the container's
`imagePullPolicy` to "IfNotPresent".  Returns the collected array and the
mutated manifest. -/
def onMountPortSetup (pod : V1Pod) : List (Option Nat) × V1Pod :=
  ((podPorts pod).map ContainerPort.hostPort,
   { pod with spec := pod.spec.map (fun sp =>
       { sp with containers := sp.containers.map (fun c =>
           { c with imagePullPolicy := some "IfNotPresent" }) }) })

/-- The reactive block at lines 385-389: when `bodyPod?.metadata?.labels`
exists, set `labels.app` to `bodyPod.metadata.name ?? ''`; otherwise do
nothing. -/
def syncAppLabel (pod : V1Pod) : V1Pod :=
  match pod.metadata with
  | none => pod
  | some md =>
      match md.labels with
      | none => pod
      | some lbls =>
          let lbls1 : PodLabels := { lbls with app := some (md.name.getD "") }
          let md1 : PodMetadata := { md with labels := some lbls1 }
          { pod with metadata := some md1 }

/-- A mutation of `metadata.name` through the bound form input (line 417):
when metadata exists its `name` is replaced, otherwise there is nothing to
bind to. -/
def setPodName (pod : V1Pod) (n : Option String) : V1Pod :=
  { pod with metadata := pod.metadata.map (fun md => { md with name := n }) }

/-- The state owned by the status poller: whether the repeating handle
`updatePodInterval` is live (`setInterval` at line 366 sets it live,
`clearInterval` at lines 125, 136 and 166 kills it), the `deployFinished`
flag, the last pod read, and the telemetry events emitted. -/
structure PollerState where
  intervalActive : Bool
  deployFinished : Bool
  createdPod : Option V1Pod
  events : List String
  deriving Repr, DecidableEq

/-- The truthiness guard of lines 118-120: both `createdPod?.metadata?.name`
and `createdPod?.metadata?.namespace` must be truthy, else `updatePod`
returns at once. -/
def podRef (p : V1Pod) : Option (String × String) :=
  match p.metadata with
  | none => none
  | some md =>
      match md.name, md.nspace with
      | some n, some ns =>
          if n ≠ "" ∧ ns ≠ "" then some (n, ns) else none
      | _, _ => none

/-- `updatePod` (lines 117-132): re-read the pod through the collaborator
(`readPod`, modelling `kubernetesReadNamespacedPod`), store it, and when its
phase is "Running" clear the interval, set `deployFinished` and emit the
completion event `deployToKube.running`; on any other phase leave the
interval running. -/
def updatePod (readPod : String → String → V1Pod) (s : PollerState) :
    PollerState :=
  match s.createdPod with
  | none => s
  | some p =>
      match podRef p with
      | none => s
      | some (n, ns) =>
          let updated := readPod n ns
          let s1 := { s with createdPod := some updated }
          if updated.status.bind PodStatus.phase = some "Running" then
            { s1 with intervalActive := false, deployFinished := true,
                      events := s1.events ++ ["deployToKube.running"] }
          else s1

/-- One firing of the repeating task installed at lines 366-368: the host
timer invokes the callback only while the handle is live — after
`clearInterval` no further invocation occurs. -/
def intervalTick (readPod : String → String → V1Pod) (s : PollerState) :
    PollerState :=
  if s.intervalActive then updatePod readPod s else s

/-- `onDestroy` (lines 134-137): unconditionally clear the interval on
component teardown. -/
def onDestroyPoller (s : PollerState) : PollerState :=
  { s with intervalActive := false }

/-- The prologue of `deployToKube` (lines 159-166): every new submission
attempt resets `deployFinished`, drops the previously created pod and
unconditionally clears any outstanding interval. -/
def deployStartPoller (s : PollerState) : PollerState :=
  { s with intervalActive := false, deployFinished := false,
           createdPod := none }

/-- A port mapping 8080 -> 80 with no protocol, as produced by
`podman generate kube` for a published port. -/
def webPort : ContainerPort :=
  { hostPort := some 8080, containerPort := some 80, protocol := none }

/-- A second port mapping 9090 -> 90 with an explicit protocol. -/
def apiPort : ContainerPort :=
  { hostPort := some 9090, containerPort := some 90, protocol := some "UDP" }

/-- A port with no `hostPort` (not published on the host). -/
def plainPort : ContainerPort :=
  { hostPort := none, containerPort := some 70, protocol := none }

/-- A container with one published and one unpublished port, a volume mount
and an explicit image-pull policy. -/
def webContainer : Container :=
  { ports := some [webPort, plainPort], volumeMounts := some ["vm0"],
    imagePullPolicy := some "Always" }

/-- A second container with one published port and no volume mounts. -/
def apiContainer : Container :=
  { ports := some [apiPort], volumeMounts := none, imagePullPolicy := none }

/-- A concrete two-container manifest named "web" with labels and a volume,
used as the evaluation input of the witnesses below. -/
def webPod : V1Pod :=
  { metadata := some
      { name := some "web", nspace := some "default",
        labels := some { app := some "old", rest := [("k", "v")] } }
    spec := some { containers := [webContainer, apiContainer],
                   volumes := some ["vol0"] }
    status := none }

/-- A pod as the cluster reports it once scheduling finished: phase
"Running". -/
def runningWebPod : V1Pod :=
  { metadata := some { name := some "web", nspace := some "default",
                       labels := none }
    spec := none
    status := some { phase := some "Running" } }

/-- A collaborator whose pod reads always return the running pod. -/
def readRunningWeb : String → String → V1Pod := fun _ _ => runningWebPod

/-- A live poller that has stored the created pod and emitted nothing yet. -/
def pollerStart : PollerState :=
  { intervalActive := true, deployFinished := false,
    createdPod := some runningWebPod, events := [] }

/-- A collaborator on which every creation call succeeds. -/
def okAllCalls : KubeCall → Bool := fun _ => true

/-! Helper lemmas shared by the claim theorems. -/

theorem truthyNat_eq_true_iff (o : Option Nat) :
    truthyNat o = true ↔ ∃ n, o = some n ∧ n ≠ 0 := by
  cases o with
  | none => simp [truthyNat]
  | some n => simp [truthyNat]

theorem length_filterMap_guard {α β : Type} (f : α → β) (q : α → Bool)
    (l : List α) :
    (l.filterMap (fun a => if q a then some (f a) else none)).length
      = (l.filter q).length := by
  induction l with
  | nil => rfl
  | cons a t ih =>
      cases h : q a <;>
        simp [List.filterMap_cons, List.filter_cons, h, ih]

theorem mem_filterMap_guard {α β : Type} (f : α → β) (q : α → Bool)
    (l : List α) (b : β) :
    b ∈ l.filterMap (fun a => if q a then some (f a) else none) ↔
      ∃ a, a ∈ l ∧ q a = true ∧ b = f a := by
  simp only [List.mem_filterMap]
  constructor
  · rintro ⟨a, ha, hfa⟩
    cases h : q a with
    | false => simp [h] at hfa
    | true =>
        refine ⟨a, ha, h, ?_⟩
        simp [h] at hfa
        exact hfa.symm
  · rintro ⟨a, ha, hq, hb⟩
    exact ⟨a, ha, by simp [hq, hb]⟩

theorem filterMap_guard_ne_nil {α β : Type} (f : α → β) (q : α → Bool)
    (l : List α) (a : α) (ha : a ∈ l) (hq : q a = true) :
    l.filterMap (fun a => if q a then some (f a) else none) ≠ [] := by
  intro hnil
  have : f a ∈ l.filterMap (fun a => if q a then some (f a) else none) :=
    (mem_filterMap_guard f q l (f a)).mpr ⟨a, ha, hq, rfl⟩
  rw [hnil] at this
  exact (List.not_mem_nil _) this

theorem ports_sanitizeContainer (c : Container) :
    (sanitizeContainer c).ports.getD [] = (c.ports.getD []).map sanitizePort := by
  cases h : c.ports <;> simp [sanitizeContainer, h]

theorem podPorts_sanitize_true (pod : V1Pod) :
    podPorts (sanitize pod true) = (podPorts pod).map sanitizePort := by
  cases pod with
  | mk md sp st =>
      cases sp with
      | none => rfl
      | some s =>
          show (s.containers.map sanitizeContainer).foldr
              (fun c acc => c.ports.getD [] ++ acc) []
            = (s.containers.foldr (fun c acc => c.ports.getD [] ++ acc) []).map
                sanitizePort
          induction s.containers with
          | nil => rfl
          | cons c cs ih =>
              simp [List.foldr_cons, ih, ports_sanitizeContainer c]

theorem runCalls_issued_then_rest (ok : KubeCall → Bool) (L : List KubeCall) :
    ∃ t, (runCalls ok L).1 ++ t = L := by
  induction L with
  | nil => exact ⟨[], rfl⟩
  | cons c rest ih =>
      cases h : ok c with
      | true =>
          obtain ⟨t, ht⟩ := ih
          exact ⟨t, by simp [runCalls, h, ht]⟩
      | false => exact ⟨rest, by simp [runCalls, h]⟩

theorem runCalls_all_ok (ok : KubeCall → Bool) (L : List KubeCall)
    (h : ∀ c ∈ L, ok c = true) : runCalls ok L = (L, true) := by
  induction L with
  | nil => rfl
  | cons c rest ih =>
      have hc : ok c = true := h c (List.mem_cons_self c rest)
      have hrest : ∀ d ∈ rest, ok d = true :=
        fun d hd => h d (List.mem_cons_of_mem c hd)
      simp [runCalls, hc, ih hrest]

theorem runCalls_first_fail (ok : KubeCall → Bool) (L1 : List KubeCall)
    (c : KubeCall) (L2 : List KubeCall) (h1 : ∀ d ∈ L1, ok d = true)
    (hc : ok c = false) :
    runCalls ok (L1 ++ c :: L2) = (L1 ++ [c], false) := by
  induction L1 with
  | nil => simp [runCalls, hc]
  | cons d t ih =>
      have hd : ok d = true := h1 d (List.mem_cons_self d t)
      have ht : ∀ e ∈ t, ok e = true :=
        fun e he => h1 e (List.mem_cons_of_mem d he)
      simp [runCalls, hd, ih ht]

/-- C3: with `useServices = true` the planner produces one ServiceSpec per
container port whose `hostPort` is truthy — as many services as there are
such ports (so N distinct non-empty hostPorts give exactly N services) —
each named `podName-hostPort`, with a single port entry whose `port` is the
hostPort, whose `protocol` defaults to "TCP" when absent, whose `targetPort`
is the port's `containerPort`, and whose selector binds `app` to the pod
name; ports with no (or zero) `hostPort` produce no service, and with
`useServices = false` no services are produced at all. -/
theorem servicePlanner_correct (pod : V1Pod) (ns : String) :
    planServices pod ns false = []
  ∧ (planServices pod ns true).length
      = ((podPorts pod).filter (fun p => truthyNat p.hostPort)).length
  ∧ (∀ s ∈ planServices pod ns true, ∃ p, p ∈ podPorts pod ∧ ∃ hp : Nat,
      p.hostPort = some hp ∧ hp ≠ 0
      ∧ s.name = podNameStr pod ++ "-" ++ toString hp
      ∧ s.ports = [{ name := s.name, port := hp,
                     protocol := p.protocol.getD "TCP",
                     targetPort := p.containerPort }]
      ∧ s.selectorApp = pod.metadata.bind PodMetadata.name) := by
  refine ⟨rfl, ?_, ?_⟩
  · exact length_filterMap_guard _ _ _
  · intro s hs
    have hmem := (mem_filterMap_guard
      (fun p => serviceForPort pod ns p (p.hostPort.getD 0))
      (fun p => truthyNat p.hostPort) (podPorts pod) s).mp hs
    obtain ⟨p, hp_mem, hq, hs_eq⟩ := hmem
    obtain ⟨hp, hhp, hne⟩ := (truthyNat_eq_true_iff p.hostPort).mp hq
    refine ⟨p, hp_mem, hp, hhp, hne, ?_, ?_, ?_⟩ <;>
      simp [hs_eq, serviceForPort, hhp]

/-- C4: sanitization with `useServices = true` removes every `hostPort`,
every `volumeMounts` and (for either flag value) `spec.volumes`; the planner
run on the sanitized manifest yields zero services, so whenever any truthy
`hostPort` was present, planning before sanitization differs from planning
after it. -/
theorem sanitizeThenPlan_correct (pod : V1Pod) (ns : String) :
    (sanitize pod true).spec.bind PodSpec.volumes = none
  ∧ (sanitize pod false).spec.bind PodSpec.volumes = none
  ∧ (∀ c ∈ ((sanitize pod true).spec.map PodSpec.containers).getD [],
      c.volumeMounts = none ∧ ∀ p ∈ c.ports.getD [], p.hostPort = none)
  ∧ planServices (sanitize pod true) ns true = []
  ∧ (∀ p ∈ podPorts pod, truthyNat p.hostPort = true →
      planServices pod ns true ≠ planServices (sanitize pod true) ns true) := by
  have hplan : planServices (sanitize pod true) ns true = [] := by
    unfold planServices
    rw [if_pos rfl, podPorts_sanitize_true]
    rw [List.filterMap_map]
    apply List.filterMap_eq_nil_iff.mpr
    intro p _
    simp [Function.comp, sanitizePort, truthyNat]
  refine ⟨?_, ?_, ?_, hplan, ?_⟩
  · cases pod with
    | mk md sp st => cases sp <;> simp [sanitize]
  · cases pod with
    | mk md sp st => cases sp <;> simp [sanitize]
  · intro c hc
    cases pod with
    | mk md sp st =>
        cases sp with
        | none => exact absurd hc (List.not_mem_nil c)
        | some s =>
            simp [sanitize] at hc
            obtain ⟨c0, _, hc0⟩ := hc
            constructor
            · rw [← hc0]; rfl
            · intro p hp
              rw [← hc0, ports_sanitizeContainer] at hp
              obtain ⟨p0, _, hp0⟩ := List.mem_map.mp hp
              rw [← hp0]; rfl
  · intro p hp_mem hq heq
    have hne : planServices pod ns true ≠ [] := by
      unfold planServices
      rw [if_pos rfl]
      exact filterMap_guard_ne_nil _ _ _ p hp_mem hq
    exact hne (heq.trans hplan)

/-- C2: with ingress creation requested, planning performs the exact case
analysis of lines 244-270 on the planned services: zero services set the
warning of line 248 and abort; exactly one service yields an ingress whose
default backend targets that service's name and single port; more than one
service with a falsy `ingressPort` sets the warning of line 258 and aborts;
more than one with an `ingressPort` matched by `find` yields an ingress
targeting the found service; more than one with no match sets the error of
line 267 and aborts.  An aborted planning phase issues no resource-creation
call. -/
theorem ingressPlanner_correct (pod : V1Pod) (ns : String)
    (useServices rg ur : Bool) (ip : Option Nat)
    (hname : truthyStr (pod.metadata.bind PodMetadata.name) = true) :
    (planServices pod ns useServices = [] →
       deployPlanPhase pod ns useServices rg ur true ip =
         ({ deployStarted := false, deployFinished := false, deployError := "",
            deployWarning := ingressNoServiceWarning }, PlanResult.abort))
  ∧ (∀ s, planServices pod ns useServices = [s] →
       deployPlanPhase pod ns useServices rg ur true ip =
         ({ deployStarted := true, deployFinished := false, deployError := "",
            deployWarning := "" },
          PlanResult.proceed [s] (planRoutes pod ns useServices rg ur)
            [mkIngress pod ns s.name (firstPortNum s)]))
  ∧ (∀ s1 s2 rest, planServices pod ns useServices = s1 :: s2 :: rest →
       truthyNat ip = false →
       deployPlanPhase pod ns useServices rg ur true ip =
         ({ deployStarted := false, deployFinished := false, deployError := "",
            deployWarning := ingressNoPortWarning }, PlanResult.abort))
  ∧ (∀ s1 s2 rest s, planServices pod ns useServices = s1 :: s2 :: rest →
       truthyNat ip = true →
       (planServices pod ns useServices).find?
           (fun sv => firstPortNum sv == ip.getD 0) = some s →
       deployPlanPhase pod ns useServices rg ur true ip =
         ({ deployStarted := true, deployFinished := false, deployError := "",
            deployWarning := "" },
          PlanResult.proceed (planServices pod ns useServices)
            (planRoutes pod ns useServices rg ur)
            [mkIngress pod ns s.name (firstPortNum s)]))
  ∧ (∀ s1 s2 rest, planServices pod ns useServices = s1 :: s2 :: rest →
       truthyNat ip = true →
       (planServices pod ns useServices).find?
           (fun sv => firstPortNum sv == ip.getD 0) = none →
       deployPlanPhase pod ns useServices rg ur true ip =
         ({ deployStarted := true, deployFinished := false,
            deployError := ingressNoMatchError, deployWarning := "" },
          PlanResult.abort))
  ∧ (∀ ok sanitizedPod, deploySubmitCalls ok sanitizedPod ns PlanResult.abort
       = ([], true)) := by
  refine ⟨?_, ?_, ?_, ?_, ?_, fun ok sanitizedPod => rfl⟩
  · intro h
    simp [deployPlanPhase, hname, h]
  · intro s h
    simp [deployPlanPhase, hname, h]
  · intro s1 s2 rest h hip
    simp [deployPlanPhase, hname, h, hip]
  · intro s1 s2 rest s h hip hfind
    rw [h] at hfind
    simp [deployPlanPhase, hname, h, hip, hfind]
  · intro s1 s2 rest h hip hfind
    rw [h] at hfind
    simp [deployPlanPhase, hname, h, hip, hfind]

/-- C9: in the ingress no-match error case `deployToKube` records the error
and aborts while leaving `deployStarted` at `true`, whereas the
zero-services warning, the missing-`ingressPort` warning and the
collaborator-failure catch handler all reset `deployStarted` to `false`. -/
theorem deployStartedFlag_asymmetry (pod : V1Pod) (ns : String)
    (useServices rg ur : Bool) (ip : Option Nat)
    (hname : truthyStr (pod.metadata.bind PodMetadata.name) = true) :
    (∀ s1 s2 rest, planServices pod ns useServices = s1 :: s2 :: rest →
       truthyNat ip = true →
       (planServices pod ns useServices).find?
           (fun sv => firstPortNum sv == ip.getD 0) = none →
       (deployPlanPhase pod ns useServices rg ur true ip).1.deployStarted = true
       ∧ (deployPlanPhase pod ns useServices rg ur true ip).1.deployError
           = ingressNoMatchError
       ∧ (deployPlanPhase pod ns useServices rg ur true ip).2 = PlanResult.abort)
  ∧ (planServices pod ns useServices = [] →
       (deployPlanPhase pod ns useServices rg ur true ip).1.deployStarted
         = false)
  ∧ (∀ s1 s2 rest, planServices pod ns useServices = s1 :: s2 :: rest →
       truthyNat ip = false →
       (deployPlanPhase pod ns useServices rg ur true ip).1.deployStarted
         = false)
  ∧ (∀ st errMsg, (deployCatchFlags st errMsg).deployStarted = false) := by
  refine ⟨?_, ?_, ?_, fun st errMsg => rfl⟩
  · intro s1 s2 rest h hip hfind
    rw [h] at hfind
    simp [deployPlanPhase, hname, h, hip, hfind]
  · intro h
    simp [deployPlanPhase, hname, h]
  · intro s1 s2 rest h hip
    simp [deployPlanPhase, hname, h, hip]

/-- C5: the creation calls of an attempt are issued strictly in the order
Pod, then each planned Service in plan order, then each planned Route, then
the Ingress (the planned list is exactly that sequence, and the issued calls
are always an initial segment of it, so no parallelism and no reordering);
when every call succeeds all of them run, and when a call fails it is the
last one issued — every remaining step is short-circuited and no step is
retried. -/
theorem submissionSequencer_correct (ok : KubeCall → Bool) (ns : String)
    (pod : V1Pod) (svcs : List ServiceSpec) (routes : List RouteSpec)
    (ings : List IngressSpec) :
    plannedCalls ns pod svcs routes ings
      = KubeCall.createPod ns pod ::
          (svcs.map (KubeCall.createService ns) ++
           routes.map (KubeCall.createRoute ns) ++
           ings.map (KubeCall.createIngress ns))
  ∧ (∃ t, (deploySubmitCalls ok pod ns
        (PlanResult.proceed svcs routes ings)).1 ++ t
          = plannedCalls ns pod svcs routes ings)
  ∧ ((∀ c ∈ plannedCalls ns pod svcs routes ings, ok c = true) →
       deploySubmitCalls ok pod ns (PlanResult.proceed svcs routes ings)
         = (plannedCalls ns pod svcs routes ings, true))
  ∧ (∀ L1 c L2, plannedCalls ns pod svcs routes ings = L1 ++ c :: L2 →
       (∀ d ∈ L1, ok d = true) → ok c = false →
       deploySubmitCalls ok pod ns (PlanResult.proceed svcs routes ings)
         = (L1 ++ [c], false)) := by
  refine ⟨rfl, ?_, ?_, ?_⟩
  · exact runCalls_issued_then_rest ok _
  · intro h
    exact runCalls_all_ok ok _ h
  · intro L1 c L2 hsplit h1 hc
    show runCalls ok (plannedCalls ns pod svcs routes ings) = (L1 ++ [c], false)
    rw [hsplit]
    exact runCalls_first_fail ok L1 c L2 h1 hc

/-- C7: after any mutation of `metadata.name`, the reactive sync leaves
`metadata.labels.app` equal to the new name when labels exist (an absent
name yields the empty string, and the remaining label entries are
untouched); when labels do not exist — or metadata itself does not — the
sync creates no label and leaves the manifest unchanged. -/
theorem labelSync_correct (pod : V1Pod) (n : Option String) :
    (∀ md lbls, pod.metadata = some md → md.labels = some lbls →
       (syncAppLabel (setPodName pod n)).metadata.bind PodMetadata.labels
         = some { app := some (n.getD ""), rest := lbls.rest })
  ∧ (∀ md, pod.metadata = some md → md.labels = none →
       syncAppLabel (setPodName pod n) = setPodName pod n)
  ∧ (pod.metadata = none → syncAppLabel pod = pod) := by
  refine ⟨?_, ?_, ?_⟩
  · intro md lbls hmd hlbls
    simp [setPodName, syncAppLabel, hmd, hlbls]
  · intro md hmd hlbls
    simp [setPodName, syncAppLabel, hmd, hlbls]
  · intro hmd
    simp [syncAppLabel, hmd]

/-- C8: a tick of the repeating task polls only while the interval handle is
live — once cancelled, a tick is a no-op, so no further poll runs; a poll
observing phase "Running" cancels the handle, sets `deployFinished` and
emits the completion event; a poll observing any other phase leaves the
handle live and emits nothing; and both component teardown and the prologue
of a new submission attempt cancel the handle unconditionally. -/
theorem statusPoller_correct (readPod : String → String → V1Pod)
    (s : PollerState) :
    (s.intervalActive = false → intervalTick readPod s = s)
  ∧ (∀ p refName refNs, s.intervalActive = true → s.createdPod = some p →
       podRef p = some (refName, refNs) →
       (readPod refName refNs).status.bind PodStatus.phase = some "Running" →
       intervalTick readPod s =
         { intervalActive := false, deployFinished := true,
           createdPod := some (readPod refName refNs),
           events := s.events ++ ["deployToKube.running"] })
  ∧ (∀ p refName refNs, s.intervalActive = true → s.createdPod = some p →
       podRef p = some (refName, refNs) →
       (readPod refName refNs).status.bind PodStatus.phase ≠ some "Running" →
       intervalTick readPod s =
         { s with createdPod := some (readPod refName refNs) })
  ∧ (onDestroyPoller s).intervalActive = false
  ∧ (deployStartPoller s).intervalActive = false
  ∧ (∀ readPod2, intervalTick readPod2 (onDestroyPoller s) = onDestroyPoller s)
  ∧ (∀ readPod2, intervalTick readPod2 (deployStartPoller s)
       = deployStartPoller s) := by
  refine ⟨?_, ?_, ?_, rfl, rfl, fun r2 => rfl, fun r2 => rfl⟩
  · intro h
    simp [intervalTick, h]
  · intro p refName refNs hact hpod href hrun
    simp [intervalTick, updatePod, hact, hpod, href, hrun]
  · intro p refName refNs hact hpod href hrun
    simp [intervalTick, updatePod, hact, hpod, href, hrun]

/-- C10: after the `onMount` processing every container's `imagePullPolicy`
is "IfNotPresent" whatever the generated manifest contained, and
sanitization preserves that, so every pod this component submits carries
`imagePullPolicy = "IfNotPresent"` on all containers. -/
theorem imagePullPolicy_forced (pod : V1Pod) (useServices : Bool) :
    (∀ c ∈ (((onMountPortSetup pod).2).spec.map PodSpec.containers).getD [],
       c.imagePullPolicy = some "IfNotPresent")
  ∧ (∀ c ∈ ((sanitize (onMountPortSetup pod).2 useServices).spec.map
        PodSpec.containers).getD [],
       c.imagePullPolicy = some "IfNotPresent") := by
  cases pod with
  | mk md sp st =>
      cases sp with
      | none =>
          exact ⟨fun c hc => absurd hc (List.not_mem_nil c),
                 by cases useServices <;>
                    exact fun c hc => absurd hc (List.not_mem_nil c)⟩
      | some s =>
          constructor
          · intro c hc
            simp [onMountPortSetup] at hc
            obtain ⟨c0, _, hc0⟩ := hc
            rw [← hc0]
          · intro c hc
            cases useServices with
            | false =>
                simp [onMountPortSetup, sanitize] at hc
                obtain ⟨c0, _, hc0⟩ := hc
                rw [← hc0]
            | true =>
                simp [onMountPortSetup, sanitize] at hc
                obtain ⟨c0, _, hc0⟩ := hc
                rw [← hc0]
                rfl

/-- C6, counterexample: the claim says the selectable port options equal
the containers' `containerPort` values, but line 103 pushes
`port.hostPort`: on the two-container manifest the options are
[8080, undefined, 9090], not the containerPorts [80, 70, 90]. -/
theorem ingressPortOptions_counterexample :
    (onMountPortSetup webPod).1
      ≠ (podPorts webPod).map ContainerPort.containerPort
  ∧ (onMountPortSetup webPod).1 = [some 8080, none, some 9090]
  ∧ (podPorts webPod).map ContainerPort.containerPort
      = [some 80, some 70, some 90] := by
  decide

/-- C6, amended: the selectable port options collected on mount are the
containers' `hostPort` values (one entry per container port, in traversal
order, including an undefined entry for a port with no hostPort), and every
planned service's matchable port — `spec.ports[0].port`, the value compared
against the chosen `ingressPort` — occurs among those options. -/
theorem ingressPortOptions_amended (pod : V1Pod) (ns : String) :
    (onMountPortSetup pod).1 = (podPorts pod).map ContainerPort.hostPort
  ∧ (∀ s ∈ planServices pod ns true,
       some (firstPortNum s) ∈ (onMountPortSetup pod).1) := by
  refine ⟨rfl, ?_⟩
  intro s hs
  have hmem := (mem_filterMap_guard
    (fun p => serviceForPort pod ns p (p.hostPort.getD 0))
    (fun p => truthyNat p.hostPort) (podPorts pod) s).mp hs
  obtain ⟨p, hp_mem, hq, hs_eq⟩ := hmem
  obtain ⟨hp, hhp, _⟩ := (truthyNat_eq_true_iff p.hostPort).mp hq
  have hport : firstPortNum s = hp := by
    simp [hs_eq, serviceForPort, firstPortNum, hhp]
  rw [hport, ← hhp]
  exact List.mem_map.mpr ⟨p, hp_mem, rfl⟩

/-- C1: the claim that a failed pod creation restores the manifest to its
exact pre-sanitization value fails on the code — line 310 copies a
reference, not the document, so the in-place sanitization survives the
restore of line 373.  Evaluated at a manifest with a volume, a volume mount
and published host ports: after the failed attempt the manifest differs
from its pre-sanitization value; `spec.volumes` (originally present),
the `volumeMounts`, and every `hostPort` are gone, i.e. the manifest is
exactly the sanitized document. -/
theorem podFailureRollback_bug :
    bodyPodAfterFailedDeploy webPod true ≠ webPod
  ∧ webPod.spec.bind PodSpec.volumes = some ["vol0"]
  ∧ (bodyPodAfterFailedDeploy webPod true).spec.bind PodSpec.volumes = none
  ∧ (bodyPodAfterFailedDeploy webPod true) = sanitize webPod true := by
  decide

/-- Witness for C3 at the two-container manifest: the Service planned for
the 8080 port mapping carries the claimed name, single port entry and
selector. -/
theorem servicePlanner_correct_witness :
    ∃ p, p ∈ podPorts webPod ∧ ∃ hp : Nat,
      p.hostPort = some hp ∧ hp ≠ 0
      ∧ (serviceForPort webPod "default" webPort 8080).name
          = podNameStr webPod ++ "-" ++ toString hp
      ∧ (serviceForPort webPod "default" webPort 8080).ports
          = [{ name := (serviceForPort webPod "default" webPort 8080).name,
               port := hp, protocol := p.protocol.getD "TCP",
               targetPort := p.containerPort }]
      ∧ (serviceForPort webPod "default" webPort 8080).selectorApp
          = webPod.metadata.bind PodMetadata.name :=
  (servicePlanner_correct webPod "default").2.2
    (serviceForPort webPod "default" webPort 8080) (by decide)

/-- Witness for C4 at the two-container manifest: its volumes are gone after
sanitization and planning before sanitization differs from planning after
it. -/
theorem sanitizeThenPlan_correct_witness :
    (sanitize webPod true).spec.bind PodSpec.volumes = none
  ∧ planServices webPod "default" true
      ≠ planServices (sanitize webPod true) "default" true := by
  have h := sanitizeThenPlan_correct webPod "default"
  exact ⟨h.1, h.2.2.2.2 webPort (by decide) (by decide)⟩

/-- Witness for C2 at the two-container manifest with `ingressPort = 9090`:
two services are planned and the ingress targets the matching Service
web-9090. -/
theorem ingressPlanner_correct_witness :
    deployPlanPhase webPod "default" true false false true (some 9090) =
      ({ deployStarted := true, deployFinished := false, deployError := "",
         deployWarning := "" },
       PlanResult.proceed (planServices webPod "default" true)
         (planRoutes webPod "default" true false false)
         [mkIngress webPod "default"
            (serviceForPort webPod "default" apiPort 9090).name
            (firstPortNum (serviceForPort webPod "default" apiPort 9090))]) :=
  (ingressPlanner_correct webPod "default" true false false (some 9090)
      (by decide)).2.2.2.1
    (serviceForPort webPod "default" webPort 8080)
    (serviceForPort webPod "default" apiPort 9090) []
    (serviceForPort webPod "default" apiPort 9090)
    (by decide) (by decide) (by decide)

/-- Witness for C9 at the two-container manifest with the unmatched
`ingressPort = 7777`: the error is recorded, the attempt aborts, and
`deployStarted` stays `true`. -/
theorem deployStartedFlag_asymmetry_witness :
    (deployPlanPhase webPod "default" true false false true
        (some 7777)).1.deployStarted = true
  ∧ (deployPlanPhase webPod "default" true false false true
        (some 7777)).1.deployError = ingressNoMatchError
  ∧ (deployPlanPhase webPod "default" true false false true
        (some 7777)).2 = PlanResult.abort :=
  (deployStartedFlag_asymmetry webPod "default" true false false (some 7777)
      (by decide)).1
    (serviceForPort webPod "default" webPort 8080)
    (serviceForPort webPod "default" apiPort 9090) []
    (by decide) (by decide) (by decide)

/-- Witness for C5 at the two-container manifest with an all-succeeding
collaborator: every planned call is issued, in plan order. -/
theorem submissionSequencer_correct_witness :
    deploySubmitCalls okAllCalls webPod "default"
        (PlanResult.proceed (planServices webPod "default" true) [] [])
      = (plannedCalls "default" webPod (planServices webPod "default" true)
           [] [], true) :=
  (submissionSequencer_correct okAllCalls "default" webPod
      (planServices webPod "default" true) [] []).2.2.1 (by decide)

/-- Witness for C7 at the two-container manifest renamed to "renamed": the
`app` label follows the new name and the other label entries survive. -/
theorem labelSync_correct_witness :
    (syncAppLabel (setPodName webPod (some "renamed"))).metadata.bind
        PodMetadata.labels
      = some { app := some ((some "renamed").getD ""), rest := [("k", "v")] } :=
  (labelSync_correct webPod (some "renamed")).1
    { name := some "web", nspace := some "default",
      labels := some { app := some "old", rest := [("k", "v")] } }
    { app := some "old", rest := [("k", "v")] } rfl rfl

/-- Witness for C8 at a live poller whose pod read reports phase "Running":
the tick cancels the interval, finishes the deployment and emits the
completion event. -/
theorem statusPoller_correct_witness :
    intervalTick readRunningWeb pollerStart =
      { intervalActive := false, deployFinished := true,
        createdPod := some (readRunningWeb "web" "default"),
        events := pollerStart.events ++ ["deployToKube.running"] } :=
  (statusPoller_correct readRunningWeb pollerStart).2.1 runningWebPod
    "web" "default" rfl rfl (by decide) (by decide)

/-- Witness for C10 at the two-container manifest: the first sanitized
container of the submitted pod carries `imagePullPolicy = "IfNotPresent"`
even though the manifest said "Always". -/
theorem imagePullPolicy_forced_witness :
    (sanitizeContainer
        { webContainer with imagePullPolicy := some "IfNotPresent" }
      ).imagePullPolicy = some "IfNotPresent" :=
  (imagePullPolicy_forced webPod true).2
    (sanitizeContainer
      { webContainer with imagePullPolicy := some "IfNotPresent" })
    (by decide)

/-- Witness for the amended C6 at the two-container manifest: the matchable
port of the Service planned for the 8080 mapping occurs among the options
collected on mount. -/
theorem ingressPortOptions_amended_witness :
    some (firstPortNum (serviceForPort webPod "default" webPort 8080))
      ∈ (onMountPortSetup webPod).1 :=
  (ingressPortOptions_amended webPod "default").2
    (serviceForPort webPod "default" webPort 8080) (by decide)

end DeployPodToKube
